import Mathlib

/-!
Verification of `datadog_checks/snmp/models.py` (SNMP data model: the `OID`
and `Value` classes) against its natural-language specification.

The Python source is embedded shallowly:

* Machine-level Python objects from the external PySNMP / pyasn1 libraries
  (`ObjectIdentity`, `ObjectType`, BER decoding, `prettyPrint`, numeric
  coercions) are boundary models: concrete Lean data types and functions
  whose doc comments say which library behavior they stand for.
* Helper functions of this repository that are not part of the embedded file
  (`parse_as_oid_tuple` and `format_as_oid_string` from `utils.py`, the
  `CouldNotDecodeOID` exception from `exceptions.py`) are modelled from the
  spec, as their doc comments note.
* Python exceptions are modelled with `Except`; mutation of an `OID`
  instance (`self._parts = ...`) is modelled by explicit state passing: the
  methods that mutate return the updated `OID` record next to their result.
* The `OID` record carries one ghost field, `parseCount`, counting how many
  times the parse helper has run on the instance.  It influences no other
  field and no returned value; it only makes "was the raw value re-parsed?"
  observable in theorems.
-/

namespace Snmp

/-- Error kinds surfaced by the embedded code.  `couldNotDecodeOID` is the
repository's `CouldNotDecodeOID` exception (the spec's `MalformedIdentifier`);
`valueError` is Python's `ValueError` (the spec's `NotNumeric`);
`notImplementedError` is Python's `NotImplementedError` (the spec's
`UnsupportedOperation`); `typeError` models Python `TypeError` from coercing a
non-numeric library value; `smiError` models PySNMP's `SmiError` on an
unresolved `ObjectIdentity`; `pyAsn1Error` models a pyasn1 decode failure. -/
inductive ErrKind
  | couldNotDecodeOID
  | valueError
  | notImplementedError
  | typeError
  | smiError
  | pyAsn1Error
deriving DecidableEq

/-- The decimal digit character for `d` (meaningful for `d < 10`). -/
def digitChar (d : Nat) : Char := Char.ofNat (48 + d)

/-- Whether `c` is a decimal digit character. -/
def isDigitChar (c : Char) : Bool := decide (48 ≤ c.toNat) && decide (c.toNat ≤ 57)

/-- The digit value of a decimal digit character. -/
def charDigit (c : Char) : Nat := c.toNat - 48

/-- Fuel-driven big-endian decimal rendering of a positive number.  The fuel
only bounds recursion depth; any fuel of at least the digit count gives the
canonical rendering. -/
def natToDecAux : Nat → Nat → List Char
  | 0, _ => []
  | _ + 1, 0 => []
  | fuel + 1, n + 1 => natToDecAux fuel ((n + 1) / 10) ++ [digitChar ((n + 1) % 10)]

/-- Canonical decimal rendering of a natural number (no leading zeros). -/
def natToDec (n : Nat) : List Char := if n = 0 then ['0'] else natToDecAux n n

/-- Left fold of decimal digit characters onto an accumulator. -/
def decToNatAux (acc : Nat) : List Char → Nat
  | [] => acc
  | c :: cs => decToNatAux (acc * 10 + charDigit c) cs

/-- Numeric value of a token: succeeds exactly on nonempty all-digit tokens
(leading zeros allowed, as in a standard numeric parse). -/
def decToNatOpt (cs : List Char) : Option Nat :=
  if cs.isEmpty then none
  else if cs.all isDigitChar then some (decToNatAux 0 cs) else none

/-- Split a character list on the dot separator.  `splitOnDot [] = [[]]`, so
the empty string yields one empty token. -/
def splitOnDot : List Char → List (List Char)
  | [] => [[]]
  | c :: cs =>
    if c = '.' then [] :: splitOnDot cs
    else
      match splitOnDot cs with
      | [] => [[c]]
      | t :: ts => (c :: t) :: ts

/-- Join tokens with the dot separator (inverse of `splitOnDot` on dot-free
tokens). -/
def joinDots : List (List Char) → List Char
  | [] => []
  | [t] => t
  | t :: t2 :: ts => t ++ '.' :: joinDots (t2 :: ts)

/-- Parse every token of a dotted string; fails if any token fails. -/
def parseTokens : List (List Char) → Option (List Nat)
  | [] => some []
  | t :: ts =>
    match decToNatOpt t, parseTokens ts with
    | some n, some ns => some (n :: ns)
    | _, _ => none

/-- Modelled from the spec (the repository's `utils.py` is not under `src/`):
interpret a dotted-decimal string as a numeric tuple.  Fails on the empty
string, on empty tokens and on non-numeric tokens, per spec section 4.1. -/
def parseDottedString (s : String) : Option (List Nat) :=
  parseTokens (splitOnDot s.data)

/-- Modelled from the spec (the repository's `utils.py` is not under `src/`):
`format_as_oid_string` renders a numeric tuple as the canonical dotted-decimal
string, each component in decimal, joined by the dot character. -/
def format_as_oid_string (parts : List Nat) : String :=
  String.mk (joinDots (parts.map natToDec))

/-- Boundary model of PySNMP's `ObjectIdentity` (the spec's symbolic-identity
handle): either constructed from a bare numeric tuple (not yet resolved
against a MIB, so `getMibSymbol` fails), or fully MIB-resolved with a MIB
name, a symbol name, its numeric tuple and instance indexes. -/
inductive ObjIdentity
  | fromParts (parts : List Nat)
  | resolved (mibName symbolName : String) (parts : List Nat) (indexes : List Nat)
deriving DecidableEq

/-- The numeric tuple carried by a symbolic-identity handle. -/
def ObjIdentity.oidParts : ObjIdentity → List Nat
  | .fromParts p => p
  | .resolved _ _ p _ => p

/-- Boundary model of `ObjectIdentity.getMibSymbol()`: returns
`(mibName, symbolName, indexes)` on a resolved handle and raises `SmiError`
on an unresolved one. -/
def ObjIdentity.getMibSymbol : ObjIdentity → Except ErrKind (String × String × List Nat)
  | .fromParts _ => .error .smiError
  | .resolved mib sym _ idx => .ok (mib, sym, idx)

/-- Boundary model of PySNMP's `ObjectType` (the spec's typed-object handle):
wraps a symbolic-identity handle. -/
structure ObjType where
  identity : ObjIdentity
deriving DecidableEq

/-- The raw representations an `OID` can be constructed from (spec section 3:
numeric sequence, dotted string, symbolic-identity handle, typed-object
handle; `ofName` is a PySNMP `ObjectName`, an already-resolved numeric OID
value).  A Python sequence may hold negative integers, hence `List Int`. -/
inductive OIDRaw
  | ofSeq (xs : List Int)
  | ofStr (s : String)
  | ofName (parts : List Nat)
  | ofIdentity (i : ObjIdentity)
  | ofType (t : ObjType)
deriving DecidableEq

/-- Modelled from the spec (the repository's `utils.py` is not under `src/`):
`parse_as_oid_tuple` turns any raw representation into the canonical numeric
tuple, failing with `CouldNotDecodeOID` when the raw value cannot be
interpreted (non-numeric or empty tokens in a dotted string, negative
components in a sequence). -/
def parse_as_oid_tuple : OIDRaw → Except ErrKind (List Nat)
  | .ofSeq xs =>
    if xs.all (fun x => decide (0 ≤ x)) then .ok (xs.map Int.toNat)
    else .error .couldNotDecodeOID
  | .ofStr s =>
    match parseDottedString s with
    | some parts => .ok parts
    | none => .error .couldNotDecodeOID
  | .ofName parts => .ok parts
  | .ofIdentity i => .ok (ObjIdentity.oidParts i)
  | .ofType t => .ok (ObjIdentity.oidParts t.identity)

/-- The `OID` class.  `raw` is the construction argument, never mutated;
`parts` models the `_parts` attribute (`none` while `_initialize` has not
run); `parseCount` is ghost instrumentation counting invocations of
`parse_as_oid_tuple` on this instance (it influences nothing else). -/
structure OID where
  raw : OIDRaw
  parts : Option (List Nat)
  parseCount : Nat
deriving DecidableEq

/-- `OID.__init__`: stores the raw value and decodes nothing (lazy). -/
def OID.new (value : OIDRaw) : OID :=
  { raw := value, parts := none, parseCount := 0 }

/-- `OID.resolve_as_tuple`: calls `_initialize` (which runs
`parse_as_oid_tuple(self.raw)` and assigns `self._parts`) and then returns
`self._parts`.  Note `_initialize` runs on every call, not only the first;
the ghost `parseCount` increments accordingly. -/
def OID.resolve_as_tuple (s : OID) : Except ErrKind (List Nat × OID) :=
  match parse_as_oid_tuple s.raw with
  | .ok p => .ok (p, { s with parts := some p, parseCount := s.parseCount + 1 })
  | .error e => .error e

/-- `OID.get_mib_symbol`: raises `NotImplementedError` unless `raw` is an
`ObjectIdentity`; otherwise returns the symbol name and the stringified
indexes from `raw.getMibSymbol()`. -/
def OID.get_mib_symbol (s : OID) : Except ErrKind (String × List String) :=
  match s.raw with
  | .ofIdentity i =>
    match ObjIdentity.getMibSymbol i with
    | .ok (_, metric, indexes) => .ok (metric, indexes.map (fun ix => String.mk (natToDec ix)))
    | .error e => .error e
  | _ => .error .notImplementedError

/-- `OID.maybe_resolve_as_object_type`: returns `raw` itself when it is an
`ObjectType`; wraps `raw` when it is an `ObjectIdentity`; otherwise wraps a
fresh `ObjectIdentity` built from the resolved tuple. -/
def OID.maybe_resolve_as_object_type (s : OID) : Except ErrKind (ObjType × OID) :=
  match s.raw with
  | .ofType t => .ok (t, s)
  | .ofIdentity i => .ok (⟨i⟩, s)
  | _ =>
    match OID.resolve_as_tuple s with
    | .ok (p, s2) => .ok (⟨ObjIdentity.fromParts p⟩, s2)
    | .error e => .error e

/-- `OID.__eq__`: resolves both sides and compares the numeric tuples.  The
updated states of both operands are returned next to the boolean. -/
def OID.eq (a b : OID) : Except ErrKind (Bool × OID × OID) :=
  match OID.resolve_as_tuple a with
  | .error e => .error e
  | .ok (ta, a2) =>
    match OID.resolve_as_tuple b with
    | .error e => .error e
    | .ok (tb, b2) => .ok (ta == tb, a2, b2)

/-- `OID.__str__`: formats the resolved tuple as a dotted-decimal string. -/
def OID.str (s : OID) : Except ErrKind (String × OID) :=
  match OID.resolve_as_tuple s with
  | .ok (t, s2) => .ok (format_as_oid_string t, s2)
  | .error e => .error e

/-- Boundary model of the pyasn1/PySNMP value universe: each constructor is
one concrete ASN.1 value class that can reach `Value.__init__`, carrying its
payload.  `Opaque` carries its raw octets; `real` is pyasn1's `Real` (a
possible inner type of an Opaque payload), modelled over the rationals. -/
inductive Asn1Value
  | counter32 (n : Nat)
  | counter64 (n : Nat)
  | zeroBasedCounter64 (n : Nat)
  | gauge32 (n : Nat)
  | integer (n : Int)
  | integer32 (n : Int)
  | unsigned32 (n : Nat)
  | counterBasedGauge64 (n : Nat)
  | octetString (s : String)
  | Opaque (octets : List Nat)
  | objectName (parts : List Nat)
  | objectIdentity (i : ObjIdentity)
  | noSuchInstance
  | noSuchObject
  | endOfMibView
  | real (q : ℚ)
deriving DecidableEq

/-- Boundary model of `value.__class__.__name__`: the Python class name of
each library value. -/
def Asn1Value.className : Asn1Value → String
  | .counter32 _ => "Counter32"
  | .counter64 _ => "Counter64"
  | .zeroBasedCounter64 _ => "ZeroBasedCounter64"
  | .gauge32 _ => "Gauge32"
  | .integer _ => "Integer"
  | .integer32 _ => "Integer32"
  | .unsigned32 _ => "Unsigned32"
  | .counterBasedGauge64 _ => "CounterBasedGauge64"
  | .octetString _ => "OctetString"
  | .Opaque _ => "Opaque"
  | .objectName _ => "ObjectName"
  | .objectIdentity _ => "ObjectIdentity"
  | .noSuchInstance => "NoSuchInstance"
  | .noSuchObject => "NoSuchObject"
  | .endOfMibView => "EndOfMibView"
  | .real _ => "Real"

/-- Whether a library value is an identifier-typed payload, i.e. an instance
of `(ObjectIdentifier, ObjectIdentity)` in the `Value.__init__` isinstance
check (`ObjectName` is pyasn1's `ObjectIdentifier` subclass). -/
def isIdentifierPayload : Asn1Value → Bool
  | .objectName _ => true
  | .objectIdentity _ => true
  | _ => false

/-- Boundary model of `noSuchInstance.isSameTypeWith(value)`: tag-set
comparison against the `NoSuchInstance` type. -/
def isNoSuchInstanceType : Asn1Value → Bool
  | .noSuchInstance => true
  | _ => false

/-- Boundary model of `noSuchObject.isSameTypeWith(value)`. -/
def isNoSuchObjectType : Asn1Value → Bool
  | .noSuchObject => true
  | _ => false

/-- Boundary model of `endOfMibView.isSameTypeWith(value)`. -/
def isEndOfMibViewType : Asn1Value → Bool
  | .endOfMibView => true
  | _ => false

/-- Boundary model of Python `int(value)` on a library value: the numeric
classes yield their payload, `Real` truncates toward zero, everything else
raises `TypeError`. -/
def asn1ToInt : Asn1Value → Except ErrKind Int
  | .counter32 n => .ok (Int.ofNat n)
  | .counter64 n => .ok (Int.ofNat n)
  | .zeroBasedCounter64 n => .ok (Int.ofNat n)
  | .gauge32 n => .ok (Int.ofNat n)
  | .integer n => .ok n
  | .integer32 n => .ok n
  | .unsigned32 n => .ok (Int.ofNat n)
  | .counterBasedGauge64 n => .ok (Int.ofNat n)
  | .real q => .ok (q.num.tdiv (Int.ofNat q.den))
  | _ => .error .typeError

/-- Boundary model of Python `float(value)` on a library value, over the
rationals: the numeric classes yield their payload, everything else raises
`TypeError`. -/
def asn1ToFloat : Asn1Value → Except ErrKind ℚ
  | .counter32 n => .ok (n : ℚ)
  | .counter64 n => .ok (n : ℚ)
  | .zeroBasedCounter64 n => .ok (n : ℚ)
  | .gauge32 n => .ok (n : ℚ)
  | .integer n => .ok (n : ℚ)
  | .integer32 n => .ok (n : ℚ)
  | .unsigned32 n => .ok (n : ℚ)
  | .counterBasedGauge64 n => .ok (n : ℚ)
  | .real q => .ok q
  | _ => .error .typeError

/-- Boundary model of Python `bytes(value)`: octet-string-like classes yield
their octets, everything else raises `TypeError`. -/
def asn1Bytes : Asn1Value → Except ErrKind (List Nat)
  | .Opaque octets => .ok octets
  | .octetString s => .ok (s.data.map Char.toNat)
  | _ => .error .typeError

/-- Big-endian unsigned base-256 value of a content octet list. -/
def berUInt (content : List Nat) : Nat :=
  content.foldl (fun acc b => acc * 256 + b) 0

/-- Boundary model of `pyasn1.codec.ber.decoder.decode` (spec section 6: the
external codec), for the tag/length/value shapes exercised here: short-form
length, tags 0x02 `Integer` (non-negative case), 0x04 `OctetString`,
0x41 `Counter32`, 0x42 `Gauge32`, 0x46 `Counter64`.  Returns the decoded
value and the remaining octets, like the library does. -/
def pyasn1_decode (bs : List Nat) : Except ErrKind (Asn1Value × List Nat) :=
  match bs with
  | tag :: len :: rest =>
    if len ≤ rest.length then
      if tag = 2 then .ok (.integer (Int.ofNat (berUInt (rest.take len))), rest.drop len)
      else if tag = 4 then
        .ok (.octetString (String.mk ((rest.take len).map Char.ofNat)), rest.drop len)
      else if tag = 65 then .ok (.counter32 (berUInt (rest.take len)), rest.drop len)
      else if tag = 66 then .ok (.gauge32 (berUInt (rest.take len)), rest.drop len)
      else if tag = 70 then .ok (.counter64 (berUInt (rest.take len)), rest.drop len)
      else .error .pyAsn1Error
    else .error .pyAsn1Error
  | _ => .error .pyAsn1Error

/-- Boundary model of `value.prettyPrint()`. -/
def intToDecStr (n : Int) : String :=
  if n < 0 then String.mk ('-' :: natToDec n.natAbs) else String.mk (natToDec n.natAbs)

/-- Boundary model of `value.prettyPrint()` on each library value class. -/
def Asn1Value.prettyPrint : Asn1Value → String
  | .counter32 n => String.mk (natToDec n)
  | .counter64 n => String.mk (natToDec n)
  | .zeroBasedCounter64 n => String.mk (natToDec n)
  | .gauge32 n => String.mk (natToDec n)
  | .integer n => intToDecStr n
  | .integer32 n => intToDecStr n
  | .unsigned32 n => String.mk (natToDec n)
  | .counterBasedGauge64 n => String.mk (natToDec n)
  | .octetString s => s
  | .Opaque octets => String.mk (joinDots (octets.map natToDec))
  | .objectName parts => format_as_oid_string parts
  | .objectIdentity i => format_as_oid_string (ObjIdentity.oidParts i)
  | .noSuchInstance => "No Such Instance currently exists at this OID"
  | .noSuchObject => "No Such Object currently exists at this OID"
  | .endOfMibView => "End of MIB View"
  | .real q => intToDecStr q.num ++ "/" ++ String.mk (natToDec q.den)

/-- `SNMP_COUNTER_CLASSES` from the source: the closed set of counter type
tags. -/
def SNMP_COUNTER_CLASSES : List String :=
  ["Counter32", "Counter64", "ZeroBasedCounter64"]

/-- `SNMP_GAUGE_CLASSES` from the source: the closed set of gauge type
tags. -/
def SNMP_GAUGE_CLASSES : List String :=
  ["Gauge32", "Integer", "Integer32", "Unsigned32", "CounterBasedGauge64"]

/-- The `_value` attribute of a `Value`: either the wrapped-in-`OID`
identifier or the original library value. -/
inductive ValueInner
  | oid (o : OID)
  | asn1 (a : Asn1Value)
deriving DecidableEq

/-- Python class name of the `_value` attribute (the wrapper class `OID` for
wrapped identifiers). -/
def ValueInner.className : ValueInner → String
  | .oid _ => "OID"
  | .asn1 a => Asn1Value.className a

/-- The `Value` class: wrapper around a library value. -/
structure Value where
  val : ValueInner
deriving DecidableEq

/-- `Value.__init__`: identifier-typed payloads (`ObjectIdentifier` /
`ObjectIdentity` instances) are wrapped in the helper class `OID`; every
other payload is stored as-is. -/
def Value.make (a : Asn1Value) : Value :=
  match a with
  | .objectName parts => ⟨.oid (OID.new (.ofName parts))⟩
  | .objectIdentity i => ⟨.oid (OID.new (.ofIdentity i))⟩
  | _ => ⟨.asn1 a⟩

/-- `Value.is_counter`: membership of the payload's class name in
`SNMP_COUNTER_CLASSES`. -/
def Value.is_counter (v : Value) : Bool :=
  SNMP_COUNTER_CLASSES.contains (ValueInner.className v.val)

/-- `Value.is_gauge`: membership of the payload's class name in
`SNMP_GAUGE_CLASSES`. -/
def Value.is_gauge (v : Value) : Bool :=
  SNMP_GAUGE_CLASSES.contains (ValueInner.className v.val)

/-- `Value.is_opaque`: the payload's class name is exactly `"Opaque"`. -/
def Value.is_opaque (v : Value) : Bool :=
  ValueInner.className v.val == "Opaque"

/-- `Value.__int__`: raises `ValueError` on a wrapped `OID`, otherwise
coerces the payload with Python `int()`. -/
def Value.toInt (v : Value) : Except ErrKind Int :=
  match v.val with
  | .oid _ => .error .valueError
  | .asn1 a => asn1ToInt a

/-- `Value.__float__`: raises `ValueError` on a wrapped `OID`; on an
`Opaque`-class payload, BER-decodes `bytes(value)` and coerces the decoded
inner value; otherwise coerces the payload directly. -/
def Value.toFloat (v : Value) : Except ErrKind ℚ :=
  match v.val with
  | .oid _ => .error .valueError
  | .asn1 a =>
    if Value.is_opaque v then
      match asn1Bytes a with
      | .ok octets =>
        match pyasn1_decode octets with
        | .ok (decoded, _) => asn1ToFloat decoded
        | .error e => .error e
      | .error e => .error e
    else asn1ToFloat a

/-- `Value.__bool__`: `True` on a wrapped `OID`; `False` when the payload has
the `NoSuchInstance` or `NoSuchObject` type; `True` otherwise. -/
def Value.toBool (v : Value) : Bool :=
  match v.val with
  | .oid _ => true
  | .asn1 a =>
    if isNoSuchInstanceType a then false
    else if isNoSuchObjectType a then false
    else true

/-- `Value.__str__`: the wrapped `OID`'s dotted string; the fixed literals
for the three sentinel types; `prettyPrint()` otherwise. -/
def Value.str (v : Value) : Except ErrKind String :=
  match v.val with
  | .oid o =>
    match OID.str o with
    | .ok (s, _) => .ok s
    | .error e => .error e
  | .asn1 a =>
    if isNoSuchInstanceType a then .ok "NoSuchInstance"
    else if isNoSuchObjectType a then .ok "NoSuchObject"
    else if isEndOfMibViewType a then .ok "EndOfMibView"
    else .ok (Asn1Value.prettyPrint a)

/-! ### Helper lemmas about the decimal and dotted-string codecs -/

theorem charDigit_digitChar (r : Nat) (h : r < 10) : charDigit (digitChar r) = r := by
  interval_cases r <;> decide

theorem isDigitChar_digitChar (r : Nat) (h : r < 10) : isDigitChar (digitChar r) = true := by
  interval_cases r <;> decide

theorem decToNatAux_append (xs ys : List Char) :
    ∀ acc, decToNatAux acc (xs ++ ys) = decToNatAux (decToNatAux acc xs) ys := by
  induction xs with
  | nil => intro acc; rfl
  | cons c cs ih => intro acc; exact ih (acc * 10 + charDigit c)

theorem decToNatAux_natToDecAux :
    ∀ fuel n acc, n ≤ fuel →
      decToNatAux acc (natToDecAux fuel n) = acc * 10 ^ (natToDecAux fuel n).length + n := by
  intro fuel
  induction fuel with
  | zero =>
    intro n acc h
    obtain rfl : n = 0 := by omega
    show acc = acc * 10 ^ (0 : Nat) + 0
    simp
  | succ f ih =>
    intro n acc h
    cases n with
    | zero =>
      show acc = acc * 10 ^ (0 : Nat) + 0
      simp
    | succ m =>
      have hq : (m + 1) / 10 ≤ f := by omega
      have hr : (m + 1) % 10 < 10 := Nat.mod_lt _ (by omega)
      have hunf : natToDecAux (f + 1) (m + 1)
          = natToDecAux f ((m + 1) / 10) ++ [digitChar ((m + 1) % 10)] := rfl
      rw [hunf, decToNatAux_append, ih ((m + 1) / 10) acc hq]
      have hsing : ∀ A c, decToNatAux A [c] = A * 10 + charDigit c := fun A c => rfl
      rw [hsing, charDigit_digitChar _ hr, List.length_append]
      have hqr : 10 * ((m + 1) / 10) + (m + 1) % 10 = m + 1 := Nat.div_add_mod (m + 1) 10
      simp only [List.length_singleton]
      rw [pow_succ, ← Nat.mul_assoc]
      generalize acc * 10 ^ (natToDecAux f ((m + 1) / 10)).length = A
      omega

theorem natToDecAux_digits :
    ∀ fuel n c, c ∈ natToDecAux fuel n → isDigitChar c = true := by
  intro fuel
  induction fuel with
  | zero => intro n c hc; exact absurd hc (List.not_mem_nil c)
  | succ f ih =>
    intro n c hc
    cases n with
    | zero => exact absurd hc (List.not_mem_nil c)
    | succ m =>
      have hunf : natToDecAux (f + 1) (m + 1)
          = natToDecAux f ((m + 1) / 10) ++ [digitChar ((m + 1) % 10)] := rfl
      rw [hunf, List.mem_append, List.mem_singleton] at hc
      rcases hc with h | h
      · exact ih _ _ h
      · subst h
        exact isDigitChar_digitChar _ (Nat.mod_lt _ (by omega))

theorem natToDec_digits (n : Nat) (c : Char) (hc : c ∈ natToDec n) : isDigitChar c = true := by
  unfold natToDec at hc
  by_cases h : n = 0
  · rw [if_pos h] at hc
    rw [List.mem_singleton] at hc
    subst hc
    rfl
  · rw [if_neg h] at hc
    exact natToDecAux_digits n n c hc

theorem decToNatOpt_natToDec (n : Nat) : decToNatOpt (natToDec n) = some n := by
  by_cases h : n = 0
  · subst h; rfl
  · unfold natToDec decToNatOpt
    rw [if_neg h]
    have hne : natToDecAux n n ≠ [] := by
      cases n with
      | zero => exact absurd rfl h
      | succ m =>
        have hunf : natToDecAux (m + 1) (m + 1)
            = natToDecAux m ((m + 1) / 10) ++ [digitChar ((m + 1) % 10)] := rfl
        rw [hunf]
        simp
    rw [if_neg (by simpa [List.isEmpty_iff] using hne)]
    rw [if_pos (by simpa [List.all_eq_true] using fun c hc => natToDecAux_digits n n c hc)]
    have := decToNatAux_natToDecAux n n 0 (Nat.le_refl n)
    simpa using this

theorem splitOnDot_dotfree (t : List Char) (h : ∀ c ∈ t, c ≠ '.') : splitOnDot t = [t] := by
  induction t with
  | nil => rfl
  | cons c cs ih =>
    have hc : c ≠ '.' := h c (by simp)
    have ih2 := ih (fun x hx => h x (by simp [hx]))
    simp only [splitOnDot, if_neg hc, ih2]

theorem splitOnDot_append (t r : List Char) (h : ∀ c ∈ t, c ≠ '.') :
    splitOnDot (t ++ '.' :: r) = t :: splitOnDot r := by
  induction t with
  | nil => simp [splitOnDot]
  | cons c cs ih =>
    have hc : c ≠ '.' := h c (by simp)
    have ih2 := ih (fun x hx => h x (by simp [hx]))
    simp only [List.cons_append, splitOnDot, if_neg hc, List.append_eq, ih2]

theorem splitOnDot_joinDots :
    ∀ ts : List (List Char), ts ≠ [] → (∀ t ∈ ts, ∀ c ∈ t, c ≠ '.') →
      splitOnDot (joinDots ts) = ts := by
  intro ts
  induction ts with
  | nil => intro h; exact absurd rfl h
  | cons t rest ih =>
    intro _ hdot
    cases rest with
    | nil => exact splitOnDot_dotfree t (hdot t (by simp))
    | cons t2 ts2 =>
      show splitOnDot (t ++ '.' :: joinDots (t2 :: ts2)) = t :: t2 :: ts2
      rw [splitOnDot_append t _ (hdot t (by simp))]
      rw [ih (by simp) (fun x hx => hdot x (by simp [hx]))]

theorem parseTokens_natToDec (parts : List Nat) :
    parseTokens (parts.map natToDec) = some parts := by
  induction parts with
  | nil => rfl
  | cons p ps ih => simp only [List.map_cons, parseTokens, decToNatOpt_natToDec, ih]

theorem parseDottedString_format (parts : List Nat) (h : parts ≠ []) :
    parseDottedString (format_as_oid_string parts) = some parts := by
  show parseTokens (splitOnDot (joinDots (parts.map natToDec))) = some parts
  rw [splitOnDot_joinDots (parts.map natToDec) (by simp [h])]
  · exact parseTokens_natToDec parts
  · intro t ht c hc
    rcases List.mem_map.mp ht with ⟨p, _, rfl⟩
    have hd := natToDec_digits p c hc
    intro hcdot
    subst hcdot
    exact absurd hd (by decide)

/-! ### Claim theorems -/

/-- C1: value classification is a closed membership test on the payload's
type-tag name: every tag in `SNMP_COUNTER_CLASSES` classifies as a counter
and not a gauge, every tag in `SNMP_GAUGE_CLASSES` classifies as a gauge and
not a counter, and in particular `CounterBasedGauge64` classifies as a gauge,
never as a counter (the embedding has no subtype relationships at all, so
membership of the literal tag name is the whole decision). -/
theorem C1_tag_classification (a : Asn1Value) :
    (Asn1Value.className a ∈ SNMP_COUNTER_CLASSES →
      Value.is_counter (Value.make a) = true ∧ Value.is_gauge (Value.make a) = false)
    ∧ (Asn1Value.className a ∈ SNMP_GAUGE_CLASSES →
      Value.is_gauge (Value.make a) = true ∧ Value.is_counter (Value.make a) = false)
    ∧ (∀ n : Nat,
      Value.is_gauge (Value.make (.counterBasedGauge64 n)) = true
      ∧ Value.is_counter (Value.make (.counterBasedGauge64 n)) = false) := by
  refine ⟨fun h => ?_, fun h => ?_, fun n => ⟨rfl, rfl⟩⟩
  · cases a <;>
      first
        | exact ⟨rfl, rfl⟩
        | simp [Asn1Value.className, SNMP_COUNTER_CLASSES] at h
  · cases a <;>
      first
        | exact ⟨rfl, rfl⟩
        | simp [Asn1Value.className, SNMP_GAUGE_CLASSES] at h

theorem C1_tag_classification_witness :
    Value.is_counter (Value.make (.counter32 42)) = true
    ∧ Value.is_gauge (Value.make (.counterBasedGauge64 42)) = true :=
  ⟨((C1_tag_classification (.counter32 42)).1 (by decide)).1,
   ((C1_tag_classification (.counterBasedGauge64 42)).2.1 (by decide)).1⟩

/-- C2 counterexample: the claim says the numeric tuple is parsed only on the
first `resolve_as_tuple` call and later calls return the cache without
re-parsing.  In the code `resolve_as_tuple` runs `_initialize` — and hence
`parse_as_oid_tuple` — unconditionally on every call: starting from a fresh
`OID`, the first call leaves ghost parse count 1 and the second call on the
resulting state re-parses, leaving parse count 2, not 1. -/
theorem C2_memoization_counterexample :
    OID.resolve_as_tuple (OID.new (.ofName [1, 3, 6, 1]))
      = .ok ([1, 3, 6, 1], ⟨.ofName [1, 3, 6, 1], some [1, 3, 6, 1], 1⟩)
    ∧ OID.resolve_as_tuple ⟨.ofName [1, 3, 6, 1], some [1, 3, 6, 1], 1⟩
      = .ok ([1, 3, 6, 1], ⟨.ofName [1, 3, 6, 1], some [1, 3, 6, 1], 2⟩)
    ∧ (2 : Nat) ≠ 1 :=
  ⟨rfl, rfl, by decide⟩

/-- C2 (amended): parsing is deferred — construction parses nothing — and
every `resolve_as_tuple` call parses `raw` anew (ghost parse count +1) and
stores the tuple in the cache field; because `raw` is never mutated, each
subsequent call returns the same tuple as the first. -/
theorem C2_lazy_deterministic_reparse (s : OID) (t : List Nat) (s2 : OID)
    (h : OID.resolve_as_tuple s = .ok (t, s2)) :
    (∀ raw, (OID.new raw).parseCount = 0 ∧ (OID.new raw).parts = none)
    ∧ s2.raw = s.raw ∧ s2.parts = some t ∧ s2.parseCount = s.parseCount + 1
    ∧ OID.resolve_as_tuple s2
        = .ok (t, { s2 with parseCount := s2.parseCount + 1 }) := by
  unfold OID.resolve_as_tuple at h
  cases hp : parse_as_oid_tuple s.raw with
  | error e => rw [hp] at h; cases h
  | ok p =>
    rw [hp] at h
    rw [Except.ok.injEq, Prod.mk.injEq] at h
    obtain ⟨rfl, rfl⟩ := h
    refine ⟨fun raw => ⟨rfl, rfl⟩, rfl, rfl, rfl, ?_⟩
    unfold OID.resolve_as_tuple
    rw [show ({ s with parts := some p, parseCount := s.parseCount + 1 } : OID).raw = s.raw
      from rfl]
    rw [hp]

theorem C2_lazy_deterministic_reparse_witness :
    OID.resolve_as_tuple ⟨.ofName [1, 3, 6, 1], some [1, 3, 6, 1], 1⟩
      = .ok ([1, 3, 6, 1], ⟨.ofName [1, 3, 6, 1], some [1, 3, 6, 1], 2⟩) :=
  (C2_lazy_deterministic_reparse (OID.new (.ofName [1, 3, 6, 1])) [1, 3, 6, 1]
    ⟨.ofName [1, 3, 6, 1], some [1, 3, 6, 1], 1⟩ rfl).2.2.2.2

/-- C3: two `OID`s compare equal exactly when their resolved numeric tuples
are equal, for any mix of raw representations that resolve successfully. -/
theorem C3_equality_via_tuples (r1 r2 : OIDRaw) (t1 t2 : List Nat)
    (h1 : parse_as_oid_tuple r1 = .ok t1) (h2 : parse_as_oid_tuple r2 = .ok t2) :
    OID.eq (OID.new r1) (OID.new r2)
      = .ok (t1 == t2, ⟨r1, some t1, 1⟩, ⟨r2, some t2, 1⟩)
    ∧ ((t1 == t2) = true ↔ t1 = t2) := by
  constructor
  · simp only [OID.eq, OID.resolve_as_tuple, OID.new, h1, h2]
  · exact beq_iff_eq

/-- C3 witness at the spec's own example: an identifier built from the dotted
string "1.3.6.1" equals one built from the sequence (1, 3, 6, 1). -/
theorem C3_equality_via_tuples_witness :
    OID.eq (OID.new (.ofStr "1.3.6.1")) (OID.new (.ofSeq [1, 3, 6, 1]))
      = .ok (([1, 3, 6, 1] : List Nat) == [1, 3, 6, 1],
          ⟨.ofStr "1.3.6.1", some [1, 3, 6, 1], 1⟩,
          ⟨.ofSeq [1, 3, 6, 1], some [1, 3, 6, 1], 1⟩)
    ∧ ((([1, 3, 6, 1] : List Nat) == [1, 3, 6, 1]) = true
        ↔ ([1, 3, 6, 1] : List Nat) = [1, 3, 6, 1]) :=
  C3_equality_via_tuples (.ofStr "1.3.6.1") (.ofSeq [1, 3, 6, 1]) [1, 3, 6, 1] [1, 3, 6, 1]
    rfl rfl

/-- C4: a `Value` wrapping an identifier-kind payload (any wrapped `OID`, and
in particular the wrap produced by construction from an `ObjectName` or
`ObjectIdentity` payload): `__int__` and `__float__` raise `ValueError` (the
spec's `NotNumeric`) and `__bool__` is `True`, regardless of the identifier's
content. -/
theorem C4_identifier_coercions :
    (∀ o : OID, Value.toInt ⟨.oid o⟩ = .error .valueError
      ∧ Value.toFloat ⟨.oid o⟩ = .error .valueError
      ∧ Value.toBool ⟨.oid o⟩ = true)
    ∧ (∀ parts, Value.make (.objectName parts) = ⟨.oid (OID.new (.ofName parts))⟩
        ∧ Value.toInt (Value.make (.objectName parts)) = .error .valueError
        ∧ Value.toFloat (Value.make (.objectName parts)) = .error .valueError
        ∧ Value.toBool (Value.make (.objectName parts)) = true)
    ∧ (∀ i, Value.make (.objectIdentity i) = ⟨.oid (OID.new (.ofIdentity i))⟩
        ∧ Value.toInt (Value.make (.objectIdentity i)) = .error .valueError
        ∧ Value.toFloat (Value.make (.objectIdentity i)) = .error .valueError
        ∧ Value.toBool (Value.make (.objectIdentity i)) = true) :=
  ⟨fun _ => ⟨rfl, rfl, rfl⟩,
   fun _ => ⟨rfl, rfl, rfl, rfl⟩,
   fun _ => ⟨rfl, rfl, rfl, rfl⟩⟩

/-- C5: `__float__` on an `Opaque`-kind value first BER-decodes the opaque
octet payload and returns the float coercion of the decoded inner value
(a decode failure propagates unchanged); on every other non-identifier kind
it coerces the payload directly, with no secondary decode. -/
theorem C5_opaque_secondary_decode (octets : List Nat) (d : Asn1Value) (rest : List Nat)
    (hdec : pyasn1_decode octets = .ok (d, rest)) :
    Value.toFloat (Value.make (.Opaque octets)) = asn1ToFloat d
    ∧ (∀ bs e, pyasn1_decode bs = .error e →
        Value.toFloat (Value.make (.Opaque bs)) = .error e)
    ∧ (∀ a : Asn1Value, isIdentifierPayload a = false → Asn1Value.className a ≠ "Opaque" →
        Value.toFloat (Value.make a) = asn1ToFloat a) := by
  refine ⟨?_, ?_, ?_⟩
  · have hop : Value.is_opaque ⟨.asn1 (.Opaque octets)⟩ = true := rfl
    show (if Value.is_opaque ⟨.asn1 (.Opaque octets)⟩ = true then
        match asn1Bytes (.Opaque octets) with
        | .ok bs =>
          match pyasn1_decode bs with
          | .ok (decoded, _) => asn1ToFloat decoded
          | .error e => .error e
        | .error e => .error e
      else asn1ToFloat (.Opaque octets)) = asn1ToFloat d
    rw [if_pos hop]
    show (match pyasn1_decode octets with
      | .ok (decoded, _) => asn1ToFloat decoded
      | .error e => (.error e : Except ErrKind ℚ)) = asn1ToFloat d
    rw [hdec]
  · intro bs e hbs
    have hop : Value.is_opaque ⟨.asn1 (.Opaque bs)⟩ = true := rfl
    show (if Value.is_opaque ⟨.asn1 (.Opaque bs)⟩ = true then
        match asn1Bytes (.Opaque bs) with
        | .ok bs2 =>
          match pyasn1_decode bs2 with
          | .ok (decoded, _) => asn1ToFloat decoded
          | .error e2 => .error e2
        | .error e2 => .error e2
      else asn1ToFloat (.Opaque bs)) = .error e
    rw [if_pos hop]
    show (match pyasn1_decode bs with
      | .ok (decoded, _) => asn1ToFloat decoded
      | .error e2 => (.error e2 : Except ErrKind ℚ)) = .error e
    rw [hbs]
  · intro a hid hcl
    cases a <;> first
      | rfl
      | (exact absurd rfl hcl)
      | simp [isIdentifierPayload] at hid

theorem C5_opaque_secondary_decode_witness :
    Value.toFloat (Value.make (.Opaque [66, 1, 42])) = asn1ToFloat (.gauge32 42)
    ∧ Value.toFloat (Value.make (.counter64 7)) = asn1ToFloat (.counter64 7) :=
  ⟨(C5_opaque_secondary_decode [66, 1, 42] (.gauge32 42) [] rfl).1,
   (C5_opaque_secondary_decode [66, 1, 42] (.gauge32 42) [] rfl).2.2 (.counter64 7) rfl
     (by decide)⟩

/-- C6: `__bool__` is `False` exactly on the `NoSuchInstance` and
`NoSuchObject` sentinels; `__str__` returns the fixed literals
"NoSuchInstance", "NoSuchObject" and "EndOfMibView" for the three sentinel
kinds; and `__bool__` is `True` for every non-sentinel, non-identifier kind,
`EndOfMibView` included. -/
theorem C6_sentinel_bool_str :
    Value.toBool (Value.make .noSuchInstance) = false
    ∧ Value.toBool (Value.make .noSuchObject) = false
    ∧ Value.str (Value.make .noSuchInstance) = .ok "NoSuchInstance"
    ∧ Value.str (Value.make .noSuchObject) = .ok "NoSuchObject"
    ∧ Value.str (Value.make .endOfMibView) = .ok "EndOfMibView"
    ∧ Value.toBool (Value.make .endOfMibView) = true
    ∧ (∀ a : Asn1Value, isIdentifierPayload a = false →
        isNoSuchInstanceType a = false → isNoSuchObjectType a = false →
        Value.toBool (Value.make a) = true) := by
  refine ⟨rfl, rfl, rfl, rfl, rfl, rfl, ?_⟩
  intro a h1 h2 h3
  cases a <;> first
    | rfl
    | exact Bool.noConfusion h1
    | exact Bool.noConfusion h2
    | exact Bool.noConfusion h3

theorem C6_sentinel_bool_str_witness :
    Value.toBool (Value.make (.octetString "x")) = true :=
  C6_sentinel_bool_str.2.2.2.2.2.2 (.octetString "x") rfl rfl rfl

/-- C7: `get_mib_symbol` succeeds only when `raw` is a symbolic-identity
handle (PySNMP `ObjectIdentity`); for every other raw representation it
raises `NotImplementedError` (the spec's `UnsupportedOperation`) without
consulting the handle's MIB data at all. -/
theorem C7_symbol_requires_identity (s : OID) :
    ((∀ i, s.raw ≠ .ofIdentity i) →
      OID.get_mib_symbol s = .error .notImplementedError)
    ∧ (∀ out, OID.get_mib_symbol s = .ok out → ∃ i, s.raw = .ofIdentity i) := by
  constructor
  · intro h
    unfold OID.get_mib_symbol
    cases hr : s.raw with
    | ofIdentity i => exact absurd hr (h i)
    | ofSeq xs => rfl
    | ofStr str => rfl
    | ofName parts => rfl
    | ofType t => rfl
  · intro out hout
    unfold OID.get_mib_symbol at hout
    cases hr : s.raw with
    | ofIdentity i => exact ⟨i, rfl⟩
    | ofSeq xs => rw [hr] at hout; simp at hout
    | ofStr str => rw [hr] at hout; simp at hout
    | ofName parts => rw [hr] at hout; simp at hout
    | ofType t => rw [hr] at hout; simp at hout

theorem C7_symbol_requires_identity_witness :
    OID.get_mib_symbol (OID.new (.ofStr "1.3.6.1")) = .error .notImplementedError :=
  (C7_symbol_requires_identity (OID.new (.ofStr "1.3.6.1"))).1 (fun _ h => nomatch h)

/-- C8: `maybe_resolve_as_object_type` returns the original typed-object
handle unchanged — same state, no resolution — when `raw` already is one;
wraps the existing symbolic-identity handle in a fresh typed object when
`raw` is one (again without resolving); and otherwise wraps a fresh identity
built from the resolved numeric tuple. -/
theorem C8_object_type_cases (s : OID) :
    (∀ t, s.raw = .ofType t → OID.maybe_resolve_as_object_type s = .ok (t, s))
    ∧ (∀ i, s.raw = .ofIdentity i → OID.maybe_resolve_as_object_type s = .ok (⟨i⟩, s))
    ∧ ((∀ t, s.raw ≠ .ofType t) → (∀ i, s.raw ≠ .ofIdentity i) →
        ∀ p s2, OID.resolve_as_tuple s = .ok (p, s2) →
          OID.maybe_resolve_as_object_type s = .ok (⟨.fromParts p⟩, s2)) := by
  refine ⟨?_, ?_, ?_⟩
  · intro t ht
    unfold OID.maybe_resolve_as_object_type
    rw [ht]
  · intro i hi
    unfold OID.maybe_resolve_as_object_type
    rw [hi]
  · intro hT hI p s2 hres
    unfold OID.maybe_resolve_as_object_type
    cases hr : s.raw with
    | ofType t => exact absurd hr (hT t)
    | ofIdentity i => exact absurd hr (hI i)
    | ofSeq xs => simp [hres]
    | ofStr str => simp [hres]
    | ofName parts => simp [hres]

theorem C8_object_type_cases_witness :
    OID.maybe_resolve_as_object_type ⟨.ofType ⟨.fromParts [1, 3]⟩, none, 0⟩
      = .ok (⟨.fromParts [1, 3]⟩, ⟨.ofType ⟨.fromParts [1, 3]⟩, none, 0⟩)
    ∧ OID.maybe_resolve_as_object_type (OID.new (.ofSeq [1, 3]))
      = .ok (⟨.fromParts [1, 3]⟩, ⟨.ofSeq [1, 3], some [1, 3], 1⟩) :=
  ⟨(C8_object_type_cases ⟨.ofType ⟨.fromParts [1, 3]⟩, none, 0⟩).1 ⟨.fromParts [1, 3]⟩ rfl,
   (C8_object_type_cases (OID.new (.ofSeq [1, 3]))).2.2 (fun _ h => nomatch h)
     (fun _ h => nomatch h) [1, 3] ⟨.ofSeq [1, 3], some [1, 3], 1⟩ rfl⟩

/-- C9 counterexample: "01" is a valid dotted-string input (it parses to the
tuple (1)), yet parse-then-format returns "1", not "01": the round trip
fails on non-canonical numeric tokens. -/
theorem C9_roundtrip_counterexample :
    parse_as_oid_tuple (.ofStr "01") = .ok [1]
    ∧ OID.str (OID.new (.ofStr "01")) = .ok ("1", ⟨.ofStr "01", some [1], 1⟩)
    ∧ "1" ≠ "01" :=
  ⟨rfl, rfl, by decide⟩

/-- C9 (amended): the parse-then-format round trip holds for every dotted
string in canonical form, i.e. every string that is the canonical
dotted-decimal rendering of a nonempty numeric tuple: `__str__` of an `OID`
built from such a string returns the string itself. -/
theorem C9_roundtrip_canonical (parts : List Nat) (h : parts ≠ []) :
    OID.str (OID.new (.ofStr (format_as_oid_string parts)))
      = .ok (format_as_oid_string parts,
          ⟨.ofStr (format_as_oid_string parts), some parts, 1⟩) := by
  have hp : parse_as_oid_tuple (.ofStr (format_as_oid_string parts)) = .ok parts := by
    show (match parseDottedString (format_as_oid_string parts) with
      | some p => (Except.ok p : Except ErrKind (List Nat))
      | none => Except.error ErrKind.couldNotDecodeOID) = Except.ok parts
    rw [parseDottedString_format parts h]
  simp only [OID.str, OID.resolve_as_tuple, OID.new, hp]

theorem C9_roundtrip_canonical_witness :
    OID.str (OID.new (.ofStr (format_as_oid_string [1, 3, 6, 1])))
      = .ok (format_as_oid_string [1, 3, 6, 1],
          ⟨.ofStr (format_as_oid_string [1, 3, 6, 1]), some [1, 3, 6, 1], 1⟩) :=
  C9_roundtrip_canonical [1, 3, 6, 1] (by decide)

/-- C10: a `Value` constructed from an identifier-typed payload wraps it in
the internal `OID` helper class, whose class name "OID" is in neither
classification set and is not "Opaque": such a value never classifies as
counter, gauge or opaque. -/
theorem C10_identifier_not_metric :
    (∀ parts, Value.make (.objectName parts) = ⟨.oid (OID.new (.ofName parts))⟩
      ∧ Value.is_counter (Value.make (.objectName parts)) = false
      ∧ Value.is_gauge (Value.make (.objectName parts)) = false
      ∧ Value.is_opaque (Value.make (.objectName parts)) = false)
    ∧ (∀ i, Value.make (.objectIdentity i) = ⟨.oid (OID.new (.ofIdentity i))⟩
      ∧ Value.is_counter (Value.make (.objectIdentity i)) = false
      ∧ Value.is_gauge (Value.make (.objectIdentity i)) = false
      ∧ Value.is_opaque (Value.make (.objectIdentity i)) = false)
    ∧ (∀ o : OID, Value.is_counter ⟨.oid o⟩ = false
      ∧ Value.is_gauge ⟨.oid o⟩ = false
      ∧ Value.is_opaque ⟨.oid o⟩ = false) :=
  ⟨fun _ => ⟨rfl, rfl, rfl, rfl⟩,
   fun _ => ⟨rfl, rfl, rfl, rfl⟩,
   fun _ => ⟨rfl, rfl, rfl⟩⟩

end Snmp
